import Mathlib

/-!
Shallow embedding of the reactive note-list controller in
`src/src/pages/Note.js` (component `Note`).

The React component keeps its data in `useState` hooks; we collect those
hooks into one record `NoteState` and model each handler as a pure
function from state (plus the wall-clock time `Date.now()` where the
handler reads it) to a new state together with the list of Firestore
write requests it issues.  The two-phase modal close (a 700 ms timer)
is modelled by its completed effect, and `setTimeout(..., 0)` in
`openModal` likewise by its completed effect.
-/

/-- A note document as mirrored from Firestore: the store-assigned `id`
plus the fields written by `addOrEditNote` ({title, text, edit, tag}). -/
structure NoteItem where
  id : String
  title : String
  text : String
  edit : Nat
  tag : String
deriving DecidableEq, Repr

/-- The resolved Firebase user (`useAuthState`): an opaque uid/email pair. -/
structure User where
  uid : String
  email : String
deriving DecidableEq, Repr

/-- The `errorModal` state hook: `{ isOpen, message }`. -/
structure ErrorModalState where
  isOpen : Bool
  message : String
deriving DecidableEq, Repr

/-- All `useState` hooks of the `Note` component, plus the resolved user.
`lastEdited` starts as the empty string in the source and otherwise holds a
numeric timestamp; we model it as `Option Nat` (`none` = the initial `""`). -/
structure NoteState where
  notes : List NoteItem
  newNote : String
  newTitle : String
  lastEdited : Option Nat
  tag : String
  searchQuery : String
  filteredNotes : List NoteItem
  isModalOpen : Bool
  isAnimating : Bool
  editIndex : Option Nat
  loading : Bool
  errorModal : ErrorModalState
  user : Option User
deriving DecidableEq, Repr

/-- JavaScript truthiness of the `lastEdited` hook value: the initial `""`
and the number `0` are falsy, every other timestamp is truthy. -/
def lastEditedTruthy : Option Nat → Bool
  | none => false
  | some n => n != 0

/-- Helper dropping leading whitespace from a character list. -/
def dropLeadingWs : List Char → List Char
  | [] => []
  | c :: t => if c.isWhitespace then dropLeadingWs t else c :: t

/-- Model of JavaScript `String.prototype.trim`: strips leading and
trailing whitespace. -/
def jsTrim (s : String) : String :=
  ⟨dropLeadingWs ((dropLeadingWs s.data.reverse).reverse)⟩

/-- Model of JavaScript `String.prototype.toLowerCase` (character-wise
lowering, adequate for the ASCII titles this app manipulates). -/
def jsToLower (s : String) : String :=
  ⟨s.data.map Char.toLower⟩

/-- A Firestore write request issued by the component. -/
inductive Request where
  | addDoc (uid : String) (title text : String) (edit : Nat) (tag : String)
  | updateDoc (uid : String) (noteId : String) (title text : String) (edit : Nat) (tag : String)
  | deleteDoc (uid : String) (noteId : String)
deriving DecidableEq, Repr

/-- Model of `openModal(index)`: populate the draft hooks from `notes[index]`
(edit mode) or reset them (create mode), then show the modal.
`now` is `Date.now()` at the time of the call; the `|| Date.now()`
fallback fires when `note.edit` is falsy (i.e. `0` in our model).
The out-of-range case (where the source would throw on `note.title`)
leaves the state unchanged. -/
def openModal (s : NoteState) (index : Option Nat) (now : Nat) : NoteState :=
  match index with
  | some i =>
    match s.notes[i]? with
    | some note =>
      { s with
        newTitle := note.title
        newNote := note.text
        lastEdited := some (if note.edit == 0 then now else note.edit)
        tag := note.tag
        editIndex := some i
        isModalOpen := true
        isAnimating := true }
    | none => s
  | none =>
    { s with
      newTitle := ""
      newNote := ""
      lastEdited := some now
      tag := ""
      editIndex := none
      isModalOpen := true
      isAnimating := true }

/-- Model of `closeModal()`: `isAnimating` flips immediately and `isModalOpen`
after a 700 ms timer; we model the completed close. -/
def closeModal (s : NoteState) : NoteState :=
  { s with isAnimating := false, isModalOpen := false }

/-- Model of `addOrEditNote()`: the guard `newTitle.trim() && newNote.trim() &&
lastEdited && user` gates the write; on success the note data
{title, text, edit := now, tag} is sent as an update (edit mode) or an
add (create mode) and the modal closes; otherwise the error modal opens
with "Please fill in all fields." and nothing is written.  `now` is
`Date.now()` read inside the handler (`currentStamp`).  The unreachable
out-of-range edit index (the source would throw) issues no write. -/
def addOrEditNote (s : NoteState) (now : Nat) : NoteState × List Request :=
  match s.user, jsTrim s.newTitle != "" && jsTrim s.newNote != "" && lastEditedTruthy s.lastEdited with
  | some u, true =>
    match s.editIndex with
    | some i =>
      match s.notes[i]? with
      | some note =>
        (closeModal s, [Request.updateDoc u.uid note.id s.newTitle s.newNote now s.tag])
      | none => (s, [])
    | none =>
      (closeModal s, [Request.addDoc u.uid s.newTitle s.newNote now s.tag])
  | _, _ =>
    ({ s with errorModal := { isOpen := true, message := "Please fill in all fields." } }, [])

/-- Model of `deleteNote()`: guarded by `editIndex !== null && user`; deletes the
document of `notes[editIndex]` and closes the modal, otherwise does
nothing.  The unreachable out-of-range index issues no write. -/
def deleteNote (s : NoteState) : NoteState × List Request :=
  match s.editIndex, s.user with
  | some i, some u =>
    match s.notes[i]? with
    | some note => (closeModal s, [Request.deleteDoc u.uid note.id])
    | none => (s, [])
  | _, _ => (s, [])

/-- Tests whether the second character list is an initial segment of the
first (building block for the JavaScript `includes` model). -/
def charsStartsWith : List Char → List Char → Bool
  | _, [] => true
  | [], _ :: _ => false
  | c :: cs, p :: ps => c == p && charsStartsWith cs ps

/-- Substring test on character lists: does `hay` contain `needle`? -/
def charsContains : List Char → List Char → Bool
  | [], needle => needle.isEmpty
  | c :: t, needle => charsStartsWith (c :: t) needle || charsContains t needle

/-- Model of JavaScript `hay.includes(needle)`. -/
def strIncludes (hay needle : String) : Bool :=
  charsContains hay.data needle.data

/-- The filter predicate of `handleSearch`:
`note.title.toLowerCase().includes(searchQuery.toLowerCase())`. -/
def titleMatches (q : String) (note : NoteItem) : Bool :=
  strIncludes (jsToLower note.title) (jsToLower q)

/-- The pure filter underlying `handleSearch`, as a function of
(list, query) alone. -/
def computeFiltered (notes : List NoteItem) (q : String) : List NoteItem :=
  if q = "" then notes else notes.filter (titleMatches q)

/-- Model of `handleSearch()`: writes the filtered list into the `filteredNotes`
hook; the empty query takes the unfiltered branch. -/
def handleSearch (s : NoteState) : NoteState :=
  if s.searchQuery = "" then
    { s with filteredNotes := s.notes }
  else
    { s with filteredNotes := s.notes.filter (titleMatches s.searchQuery) }

/-- A document delivered in a Firestore snapshot: `doc.id` plus `doc.data()`. -/
structure SnapshotDoc where
  id : String
  title : String
  text : String
  edit : Nat
  tag : String
deriving DecidableEq, Repr

/-- Conversion `{ id: doc.id, ...doc.data() }` in the snapshot callback. -/
def docToNote (d : SnapshotDoc) : NoteItem :=
  { id := d.id, title := d.title, text := d.text, edit := d.edit, tag := d.tag }

/-- An event delivered by the `onSnapshot` subscription: a snapshot or an
error (carrying the message that `console.error` would log). -/
inductive SnapEvent where
  | next (docs : List SnapshotDoc)
  | error (msg : String)
deriving DecidableEq, Repr

/-- One delivery of the `onSnapshot` subscription, acting on the state and
the console log: a snapshot replaces `notes` wholesale and clears
`loading`; an error only logs and clears `loading`. -/
def snapStep (sl : NoteState × List String) : SnapEvent → NoteState × List String
  | SnapEvent.next docs =>
    ({ sl.1 with notes := docs.map docToNote, loading := false }, sl.2)
  | SnapEvent.error msg =>
    ({ sl.1 with loading := false }, sl.2 ++ ["Error fetching notes: " ++ msg])

/-- Model of the `useEffect` subscription: established only when a user is
resolved (`if (user) { ... onSnapshot(...) }`); returns the collection
path subscribed to, or `none` when no subscription is made. -/
def subscribeForUser (user : Option User) : Option String :=
  user.map (fun u => "users/" ++ u.uid ++ "/notes")

/-- Tag-to-border-color mapping of the list items. -/
def getBorderColor (tag : String) : String :=
  match tag with
  | "Work" => "border-red-500"
  | "School" => "border-blue-500"
  | "Personal" => "border-yellow-500"
  | _ => "border-gray-500"

/-- Tag-to-font-color mapping of the tag label. -/
def getFontColor (tag : String) : String :=
  match tag with
  | "Work" => "text-red-500"
  | "School" => "text-blue-500"
  | "Personal" => "text-yellow-500"
  | _ => "text-gray-500"

/-- One rendered list entry: the displayed title text, the HTML injected
for the body via `dangerouslySetInnerHTML`, and the styling strings. -/
structure RenderedNoteItem where
  titleText : String
  bodyHtml : String
  borderClass : String
  fontClass : String
  tagText : String
deriving DecidableEq, Repr

/-- Rendering of one entry of the filtered list (lines 241-262 of the
source): the body HTML is `DOMPurify.sanitize(note.text)`; the sanitizer
is an external collaborator and enters as a function parameter. -/
def renderFilteredItem (sanitize : String → String) (note : NoteItem) : RenderedNoteItem :=
  { titleText := note.title
    bodyHtml := sanitize note.text
    borderClass := getBorderColor note.tag
    fontClass := getFontColor note.tag
    tagText := note.tag }

/-- Rendering of one entry of the full list (lines 281-307 of the
source); the body HTML is again `DOMPurify.sanitize(note.text)`. -/
def renderFullItem (sanitize : String → String) (note : NoteItem) : RenderedNoteItem :=
  { titleText := note.title
    bodyHtml := sanitize note.text
    borderClass := getBorderColor note.tag
    fontClass := getFontColor note.tag
    tagText := note.tag }

/-- The rendered filtered list: `filteredNotes.map(...)`. -/
def renderFilteredList (sanitize : String → String) (s : NoteState) : List RenderedNoteItem :=
  s.filteredNotes.map (renderFilteredItem sanitize)

/-- The rendered full list: `notes.map(...)`. -/
def renderFullList (sanitize : String → String) (s : NoteState) : List RenderedNoteItem :=
  s.notes.map (renderFullItem sanitize)

/-- Concrete user for witnesses. -/
def demoUser : User :=
  { uid := "uid1", email := "u@example.com" }

/-- Concrete note for witnesses. -/
def demoNote : NoteItem :=
  { id := "n1", title := "Groceries", text := "milk", edit := 100, tag := "Personal" }

/-- Concrete base component state for witnesses: one mirrored note, a
resolved user, everything else at its initial value. -/
def baseState : NoteState :=
  { notes := [demoNote]
    newNote := ""
    newTitle := ""
    lastEdited := none
    tag := ""
    searchQuery := ""
    filteredNotes := []
    isModalOpen := false
    isAnimating := false
    editIndex := none
    loading := true
    errorModal := { isOpen := false, message := "" }
    user := some demoUser }

/-- State whose draft title is whitespace-only (validation must fail). -/
def blankDraftState : NoteState :=
  { baseState with newTitle := "   ", newNote := "body", lastEdited := some 5 }

/-- State holding a valid create-mode draft. -/
def createDraftState : NoteState :=
  { baseState with newTitle := "Trip", newNote := "pack", lastEdited := some 50, tag := "Work" }

/-- State in which the modal is open in edit mode on index 0. -/
def deleteState : NoteState :=
  { baseState with editIndex := some 0 }

/-- State with no resolved user. -/
def noUserState : NoteState :=
  { baseState with user := none }

/-- State carrying a non-empty search query matching the demo note. -/
def searchDemoState : NoteState :=
  { baseState with searchQuery := "groc" }

/-- Variant of `searchDemoState` differing only in fields the filter must
ignore. -/
def searchDemoStateB : NoteState :=
  { searchDemoState with tag := "Work", isModalOpen := true, filteredNotes := [demoNote] }

/-- Mirrored note whose body is whitespace-only: re-submitting it
unmodified trips the validation gate. -/
def staleNote : NoteItem :=
  { id := "n2", title := "Trip", text := "   ", edit := 40, tag := "Work" }

/-- State mirroring `staleNote`, used to refute the unconditional
round-trip claim. -/
def roundTripCexState : NoteState :=
  { baseState with notes := [staleNote] }

/-- C1: a draft whose title or body trims to the empty string is rejected
by `addOrEditNote` in every mode: no write request is issued, the error
modal opens with the fill-in message, and the mirrored list is untouched. -/
theorem addOrEditNote_rejects_blank (s : NoteState) (now : Nat)
    (h : jsTrim s.newTitle = "" ∨ jsTrim s.newNote = "") :
    (addOrEditNote s now).2 = [] ∧
    (addOrEditNote s now).1.errorModal = { isOpen := true, message := "Please fill in all fields." } ∧
    (addOrEditNote s now).1.notes = s.notes := by
  have hg : (jsTrim s.newTitle != "" && jsTrim s.newNote != "" && lastEditedTruthy s.lastEdited)
      = false := by
    rcases h with h | h <;> simp [h]
  cases hu : s.user <;> simp [addOrEditNote, hu, hg]

/-- Witness for C1 at a concrete whitespace-only title. -/
theorem addOrEditNote_rejects_blank_witness :
    (addOrEditNote blankDraftState 7).2 = [] ∧
    (addOrEditNote blankDraftState 7).1.errorModal
      = { isOpen := true, message := "Please fill in all fields." } ∧
    (addOrEditNote blankDraftState 7).1.notes = blankDraftState.notes :=
  addOrEditNote_rejects_blank blankDraftState 7 (Or.inl (by decide))

/-- C2: the result of `handleSearch` is a sublist of the mirrored list;
for a non-empty query every element of the result matches the query
case-insensitively; every mirrored note matching the query is in the
result; and the empty query returns the full list unchanged. -/
theorem handleSearch_filter_spec (s : NoteState) :
    List.Sublist (handleSearch s).filteredNotes s.notes ∧
    (s.searchQuery ≠ "" →
      ∀ n ∈ (handleSearch s).filteredNotes, titleMatches s.searchQuery n = true) ∧
    (∀ n ∈ s.notes, titleMatches s.searchQuery n = true →
      n ∈ (handleSearch s).filteredNotes) ∧
    (s.searchQuery = "" → (handleSearch s).filteredNotes = s.notes) := by
  by_cases hq : s.searchQuery = ""
  · have he : (handleSearch s).filteredNotes = s.notes := by simp [handleSearch, hq]
    rw [he]
    exact ⟨List.Sublist.refl _, fun hne => absurd hq hne, fun n hn _ => hn, fun _ => rfl⟩
  · have he : (handleSearch s).filteredNotes = s.notes.filter (titleMatches s.searchQuery) := by
      simp [handleSearch, hq]
    rw [he]
    exact ⟨List.filter_sublist s.notes, fun _ n hn => (List.mem_filter.mp hn).2,
      fun n hn hm => List.mem_filter.mpr ⟨hn, hm⟩, fun h => absurd h hq⟩

/-- Witness for C2: the demo note matches the query "groc" and survives
the filter, and the filtered list is a sublist of the full list. -/
theorem handleSearch_filter_spec_witness :
    demoNote ∈ (handleSearch searchDemoState).filteredNotes ∧
    List.Sublist (handleSearch searchDemoState).filteredNotes searchDemoState.notes := by
  have h := handleSearch_filter_spec searchDemoState
  exact ⟨h.2.2.1 demoNote (by decide) (by decide), h.1⟩

/-- C5: a valid draft submitted in create mode issues exactly one
`addDoc` request carrying {title, text, edit := now, tag} and leaves the
mirrored list untouched (no optimistic insertion). -/
theorem addOrEditNote_create (s : NoteState) (u : User) (now : Nat)
    (hu : s.user = some u) (he : s.editIndex = none)
    (ht : jsTrim s.newTitle ≠ "") (hb : jsTrim s.newNote ≠ "")
    (hl : lastEditedTruthy s.lastEdited = true) :
    (addOrEditNote s now).2 = [Request.addDoc u.uid s.newTitle s.newNote now s.tag] ∧
    (addOrEditNote s now).1.notes = s.notes := by
  have hg : (jsTrim s.newTitle != "" && jsTrim s.newNote != "" && lastEditedTruthy s.lastEdited)
      = true := by
    simp [ht, hb, hl]
  simp [addOrEditNote, hu, hg, he, closeModal]

/-- Witness for C5 at the concrete create-mode draft. -/
theorem addOrEditNote_create_witness :
    (addOrEditNote createDraftState 60).2
      = [Request.addDoc "uid1" "Trip" "pack" 60 "Work"] ∧
    (addOrEditNote createDraftState 60).1.notes = createDraftState.notes :=
  addOrEditNote_create createDraftState demoUser 60 rfl rfl (by decide) (by decide) rfl

/-- C3 (amended): opening the modal on a mirrored note whose fields pass
validation and submitting unmodified, with a resolved user, a nonzero
open time and a submit time later than the prior edit stamp, issues
exactly the update request for that note with its committed fields and
the fresh timestamp, which is strictly greater than the prior value. -/
theorem openModal_then_submit (s : NoteState) (i : Nat) (note : NoteItem) (u : User)
    (tOpen tSubmit : Nat)
    (hi : s.notes[i]? = some note) (hu : s.user = some u)
    (ht : jsTrim note.title ≠ "") (hb : jsTrim note.text ≠ "")
    (hopen : 0 < tOpen) (hafter : note.edit < tSubmit) :
    (addOrEditNote (openModal s (some i) tOpen) tSubmit).2
      = [Request.updateDoc u.uid note.id note.title note.text tSubmit note.tag] ∧
    note.edit < tSubmit := by
  refine ⟨?_, hafter⟩
  by_cases h0 : note.edit = 0
  · have hsm : openModal s (some i) tOpen =
        { s with
          newTitle := note.title
          newNote := note.text
          lastEdited := some tOpen
          tag := note.tag
          editIndex := some i
          isModalOpen := true
          isAnimating := true } := by
      simp [openModal, hi, h0]
    have hz : tOpen ≠ 0 := Nat.pos_iff_ne_zero.mp hopen
    have hg : (jsTrim note.title != "" && jsTrim note.text != ""
        && lastEditedTruthy (some tOpen)) = true := by
      simp [ht, hb, lastEditedTruthy, hz]
    rw [hsm]
    simp [addOrEditNote, hg, hi, hu, closeModal]
  · have hsm : openModal s (some i) tOpen =
        { s with
          newTitle := note.title
          newNote := note.text
          lastEdited := some note.edit
          tag := note.tag
          editIndex := some i
          isModalOpen := true
          isAnimating := true } := by
      simp [openModal, hi, h0]
    have hg : (jsTrim note.title != "" && jsTrim note.text != ""
        && lastEditedTruthy (some note.edit)) = true := by
      simp [ht, hb, lastEditedTruthy, h0]
    rw [hsm]
    simp [addOrEditNote, hg, hi, hu, closeModal]

/-- Witness for C3 (amended) at the concrete demo note. -/
theorem openModal_then_submit_witness :
    (addOrEditNote (openModal baseState (some 0) 150) 200).2
      = [Request.updateDoc "uid1" "n1" "Groceries" "milk" 200 "Personal"] ∧
    demoNote.edit < 200 :=
  openModal_then_submit baseState 0 demoNote demoUser 150 200 rfl rfl
    (by decide) (by decide) (by decide) (by decide)

/-- Counterexample to C3 as stated: for the mirrored note with
whitespace-only body, opening the modal on index 0 and submitting
unmodified issues no update request at all — the validation gate fires
instead. -/
theorem openModal_then_submit_cex :
    (addOrEditNote (openModal roundTripCexState (some 0) 50) 60).2 = [] ∧
    (addOrEditNote (openModal roundTripCexState (some 0) 50) 60).1.errorModal.isOpen = true := by
  decide

/-- Every snapshot event clears the loading flag. -/
theorem snapStep_loading (sl : NoteState × List String) (ev : SnapEvent) :
    ((snapStep sl ev).1).loading = false := by
  cases ev <;> rfl

/-- Folding snapshot events preserves a cleared loading flag. -/
theorem foldl_snapStep_loading (evs : List SnapEvent) :
    ∀ sl : NoteState × List String, sl.1.loading = false →
      ((evs.foldl snapStep sl).1).loading = false := by
  induction evs with
  | nil => intro sl h; exact h
  | cons e es ih => intro sl _; exact ih (snapStep sl e) (snapStep_loading sl e)

/-- C4: a delivered snapshot replaces the mirrored list wholesale by the
documents of the snapshot (each carrying its store id) without logging;
a delivery error leaves the mirrored list unchanged and appends the
message to the console log; both clear the loading flag, and after any
non-empty sequence of deliveries the view is out of the loading state. -/
theorem snapshot_subscription_spec (s : NoteState) (log : List String)
    (docs : List SnapshotDoc) (msg : String) (evs : List SnapEvent) (hevs : evs ≠ []) :
    (snapStep (s, log) (SnapEvent.next docs)).1.notes = docs.map docToNote ∧
    (snapStep (s, log) (SnapEvent.next docs)).1.loading = false ∧
    (snapStep (s, log) (SnapEvent.next docs)).2 = log ∧
    (snapStep (s, log) (SnapEvent.error msg)).1.notes = s.notes ∧
    (snapStep (s, log) (SnapEvent.error msg)).1.loading = false ∧
    (snapStep (s, log) (SnapEvent.error msg)).2 = log ++ ["Error fetching notes: " ++ msg] ∧
    ((evs.foldl snapStep (s, log)).1).loading = false := by
  refine ⟨rfl, rfl, rfl, rfl, rfl, rfl, ?_⟩
  cases evs with
  | nil => exact absurd rfl hevs
  | cons e es => exact foldl_snapStep_loading es (snapStep (s, log) e) (snapStep_loading _ e)

/-- Witness for C4 at a concrete error delivery. -/
theorem snapshot_subscription_spec_witness :
    (snapStep (baseState, []) (SnapEvent.error "net down")).1.notes = baseState.notes ∧
    (([SnapEvent.error "net down"].foldl snapStep (baseState, [])).1).loading = false := by
  have h := snapshot_subscription_spec baseState [] [] "net down"
    [SnapEvent.error "net down"] (by decide)
  exact ⟨h.2.2.2.1, h.2.2.2.2.2.2⟩

/-- C6: in both render paths, every rendered entry shows as its body HTML
the sanitizer output on some displayed note's stored text — the stored
markup never reaches the DOM unsanitized. -/
theorem rendered_body_sanitized (sanitize : String → String) (s : NoteState) :
    (∀ r ∈ renderFilteredList sanitize s, ∃ n ∈ s.filteredNotes, r.bodyHtml = sanitize n.text) ∧
    (∀ r ∈ renderFullList sanitize s, ∃ n ∈ s.notes, r.bodyHtml = sanitize n.text) := by
  constructor
  · intro r hr
    simp only [renderFilteredList] at hr
    rcases List.mem_map.mp hr with ⟨n, hn, hrn⟩
    refine ⟨n, hn, ?_⟩
    rw [← hrn]
    rfl
  · intro r hr
    simp only [renderFullList] at hr
    rcases List.mem_map.mp hr with ⟨n, hn, hrn⟩
    refine ⟨n, hn, ?_⟩
    rw [← hrn]
    rfl

/-- Witness for C6 on the concrete filtered list. -/
theorem rendered_body_sanitized_witness :
    ∃ n ∈ searchDemoStateB.filteredNotes,
      (renderFilteredItem jsToLower demoNote).bodyHtml = jsToLower n.text :=
  (rendered_body_sanitized jsToLower searchDemoStateB).1
    (renderFilteredItem jsToLower demoNote) (by decide)

/-- C7: with the modal opened in edit mode on index i and a resolved
user, `deleteNote` issues exactly one delete request, targeting the id
of note i, and closes the modal. -/
theorem deleteNote_targets (s : NoteState) (i : Nat) (note : NoteItem) (u : User)
    (hi : s.notes[i]? = some note) (he : s.editIndex = some i) (hu : s.user = some u) :
    (deleteNote s).2 = [Request.deleteDoc u.uid note.id] ∧
    (deleteNote s).1.isModalOpen = false ∧
    (deleteNote s).1.isAnimating = false := by
  simp [deleteNote, he, hu, hi, closeModal]

/-- Witness for C7 at the concrete edit-mode state. -/
theorem deleteNote_targets_witness :
    (deleteNote deleteState).2 = [Request.deleteDoc "uid1" "n1"] ∧
    (deleteNote deleteState).1.isModalOpen = false ∧
    (deleteNote deleteState).1.isAnimating = false :=
  deleteNote_targets deleteState 0 demoNote demoUser rfl rfl rfl

/-- C8: with no resolved user there is no subscription and no write
activity: the effect subscribes to nothing, and neither submit nor
delete issues any request, whatever the draft holds. -/
theorem no_user_no_activity (s : NoteState) (now : Nat) (h : s.user = none) :
    subscribeForUser s.user = none ∧
    (addOrEditNote s now).2 = [] ∧
    (deleteNote s).2 = [] := by
  refine ⟨by simp [subscribeForUser, h], ?_, ?_⟩
  · cases hg : (jsTrim s.newTitle != "" && jsTrim s.newNote != ""
        && lastEditedTruthy s.lastEdited) <;>
      simp [addOrEditNote, h, hg]
  · cases he : s.editIndex <;> simp [deleteNote, h, he]

/-- Witness for C8 at the concrete user-less state. -/
theorem no_user_no_activity_witness :
    subscribeForUser noUserState.user = none ∧
    (addOrEditNote noUserState 5).2 = [] ∧
    (deleteNote noUserState).2 = [] :=
  no_user_no_activity noUserState 5 rfl

/-- C9 (amended): `handleSearch` is the pure filter of (list, query)
written into the `filteredNotes` hook and changes nothing else; it is
idempotent; and its output depends on the state only through the list
and the query.  (The hook is not recomputed automatically: a later list
or query change leaves the displayed result stale, see the
counterexample.) -/
theorem handleSearch_pure (s t : NoteState) :
    handleSearch s = { s with filteredNotes := computeFiltered s.notes s.searchQuery } ∧
    handleSearch (handleSearch s) = handleSearch s ∧
    (s.notes = t.notes → s.searchQuery = t.searchQuery →
      (handleSearch s).filteredNotes = (handleSearch t).filteredNotes) := by
  have key : ∀ w : NoteState,
      handleSearch w = { w with filteredNotes := computeFiltered w.notes w.searchQuery } := by
    intro w
    by_cases hq : w.searchQuery = "" <;> simp [handleSearch, computeFiltered, hq]
  refine ⟨key s, ?_, ?_⟩
  · rw [key s, key { s with filteredNotes := computeFiltered s.notes s.searchQuery }]
  · intro hn hq
    rw [key s, key t]
    show computeFiltered s.notes s.searchQuery = computeFiltered t.notes t.searchQuery
    rw [hn, hq]

/-- Witness for C9 (amended): the filter output agrees across two states
sharing list and query but differing elsewhere. -/
theorem handleSearch_pure_witness :
    handleSearch baseState
      = { baseState with filteredNotes := computeFiltered baseState.notes baseState.searchQuery } ∧
    (handleSearch searchDemoState).filteredNotes = (handleSearch searchDemoStateB).filteredNotes :=
  ⟨(handleSearch_pure baseState baseState).1,
   (handleSearch_pure searchDemoState searchDemoStateB).2.2 rfl rfl⟩

/-- Counterexample to C9 as stated: after a search and a subsequent
snapshot delivery, the displayed filtered result is no longer what the
filter returns on the current list and query — it is stale. -/
theorem handleSearch_stale_cex :
    ((snapStep (handleSearch searchDemoState, []) (SnapEvent.next [])).1).filteredNotes
      ≠ computeFiltered
          ((snapStep (handleSearch searchDemoState, []) (SnapEvent.next [])).1).notes
          ((snapStep (handleSearch searchDemoState, []) (SnapEvent.next [])).1).searchQuery := by
  decide

/-- C10: when no item is being edited or no user is resolved,
`deleteNote` is a complete no-op: no request and a bit-identical state
(in particular the modal stays as it was and the list is unchanged). -/
theorem deleteNote_noop (s : NoteState) (h : s.editIndex = none ∨ s.user = none) :
    deleteNote s = (s, []) := by
  rcases h with h | h
  · simp [deleteNote, h]
  · cases he : s.editIndex <;> simp [deleteNote, he, h]

/-- Witness for C10 at the concrete create-mode state. -/
theorem deleteNote_noop_witness : deleteNote baseState = (baseState, []) :=
  deleteNote_noop baseState (Or.inl rfl)
